import Mathlib

/-!
Verification of tracexec against its specification.

We shallowly embed the parts of the program the claims are about:
`print_execve_trace` (src/printer.rs), the log-mode consumer loop and the
kernel version check (src/main.rs), and the TUI `App` state operations
(src/tui/app.rs).  Rust `&str` values are modelled as `List Char` (all
inputs of interest are ASCII, where byte indices and character indices
coincide); `HashMap<String, String>` is modelled as an association list
with unique keys (hash-map iteration order is modelled as list order; no
claim below depends on the order of more than one residual entry).
Rust panics are made explicit as an error value.
-/

namespace Tracexec

/-- A Rust panic, made explicit.  `unwrapNone` models `Option::unwrap` on
`None`; `sliceIndexOutOfBounds` models an out-of-bounds string-slice index
such as `&tail[1..]` with `tail.len() < 1`. -/
inductive Panic where
  | unwrapNone
  | sliceIndexOutOfBounds
deriving DecidableEq, Repr

/-- `ExecData` (src/state.rs via the spec §3): immutable snapshot of one exec
call: filename, argv and the raw `KEY=VALUE` envp strings. -/
structure ExecData where
  filename : List Char
  argv : List (List Char)
  envp : List (List Char)
deriving DecidableEq, Repr

/-- The fields of `ProcessState` used by `print_execve_trace`
(src/printer.rs uses `state.pid`, `state.comm`, `state.exec_data`). -/
structure ProcessState where
  pid : Nat
  comm : List Char
  exec_data : Option ExecData
deriving DecidableEq, Repr

/-- The `TracingArgs` flags consulted by `print_execve_trace`
(src/printer.rs lines 26-30 and 117).  Each is a CLI flag defaulting to
`false` when absent. -/
structure TracingArgs where
  no_trace_comm : Bool
  no_trace_argv : Bool
  trace_env : Bool
  no_diff_env : Bool
  no_trace_filename : Bool
  no_decode_errno : Bool
deriving DecidableEq, Repr

/-- All flags absent: the CLI defaults.  In particular env diffing is on. -/
def defaultTracingArgs : TracingArgs :=
  ⟨false, false, false, false, false, false⟩

/-- The baseline environment mapping (`HashMap<String, String>`), as an
association list with unique keys. -/
abbrev EnvMap := List (List Char × List Char)

/-- `env.get(k)` on the baseline map. -/
def envGet (env : EnvMap) (k : List Char) : Option (List Char) :=
  (env.find? (fun kv => kv.1 == k)).map (fun kv => kv.2)

/-- `env.remove(k)` on the baseline map (keys are unique, so removing all
occurrences of `k` models `HashMap::remove`). -/
def envRemove (env : EnvMap) (k : List Char) : EnvMap :=
  env.filter (fun kv => !(kv.1 == k))

/-- The `(k, v)` destructuring of one envp entry in `print_execve_trace`
(src/printer.rs lines 47-68): find the first `'='`; if absent, warn and use
`item.len()`.  If the position is `0`, search again in `item[1..]` and store
the position *relative to the skipped iterator* (as the source does).  Then
`split_at(sep_loc)` and take `&tail[1..]` — which panics when `tail` is
empty. -/
def parseEnvEntry (item : List Char) : Except Panic (List Char × List Char) :=
  let sep0 := (item.findIdx? (fun c => c == '=')).getD item.length
  let sep_loc :=
    if sep0 = 0 then ((item.drop 1).findIdx? (fun c => c == '=')).getD item.length
    else sep0
  let head := item.take sep_loc
  let tail := item.drop sep_loc
  if tail.length < 1 then Except.error Panic.sliceIndexOutOfBounds
  else Except.ok (head, tail.drop 1)

/-- One visually distinct line of the printed environment diff:
`M k=v` (modified), `+k=v` (added), `-k=v` (removed). -/
inductive DiffRecord where
  | modified (k v : List Char)
  | added (k v : List Char)
  | removed (k v : List Char)
deriving DecidableEq, Repr

/-- The loop over `exec_data.envp` in `print_execve_trace`
(src/printer.rs lines 46-93), acting on the local clone of the baseline:
a key present in the clone prints `M` iff its value changed and is removed
from the clone; a key not present prints `+`.  Returns the printed records
and the final state of the clone. -/
def diffEnvLoop : EnvMap → List (List Char) → Except Panic (List DiffRecord × EnvMap)
  | env, [] => Except.ok ([], env)
  | env, item :: rest =>
    match parseEnvEntry item with
    | Except.error p => Except.error p
    | Except.ok (k, v) =>
      match envGet env k with
      | some orig_v =>
        match diffEnvLoop (envRemove env k) rest with
        | Except.error p => Except.error p
        | Except.ok (recs, envf) =>
          Except.ok ((if orig_v ≠ v then [DiffRecord.modified k v] else []) ++ recs, envf)
      | none =>
        match diffEnvLoop env rest with
        | Except.error p => Except.error p
        | Except.ok (recs, envf) => Except.ok (DiffRecord.added k v :: recs, envf)

/-- `print_execve_trace` (src/printer.rs lines 13-130), restricted to its
observable diff behaviour.  The `unwrap` of `state.exec_data` (line 23)
panics on `None`.  When `diff_env = !no_diff_env && !trace_env` holds, the
envp loop runs on a clone of the baseline (line 45: `let mut env =
env.clone()`), then the entries remaining in the clone are printed as
removed (lines 95-104).  Returns the diff records together with the
caller's baseline map after the call (unchanged, since only the clone is
mutated).  The `result` argument only affects errno pretty-printing,
which emits no diff records. -/
def print_execve_trace (state : ProcessState) (result : Int)
    (tracing_args : TracingArgs) (env : EnvMap) :
    Except Panic (List DiffRecord × EnvMap) :=
  match state.exec_data with
  | none => Except.error Panic.unwrapNone
  | some exec_data =>
    let trace_env := tracing_args.trace_env
    let diff_env := !tracing_args.no_diff_env && !trace_env
    if diff_env then
      match diffEnvLoop env exec_data.envp with
      | Except.error p => Except.error p
      | Except.ok (recs, clone) =>
        Except.ok (recs ++ clone.map (fun kv => DiffRecord.removed kv.1 kv.2), env)
    else
      Except.ok ([], env)

/-- The baseline `{A=1, B=2}` of the spec's environment-diffing example. -/
def baselineAB : EnvMap := [("A".data, "1".data), ("B".data, "2".data)]

/-- Modelled from the spec: `TracerEvent` is defined in the repository's
`src/event.rs`, which is not among the provided sources; §3 of the spec
lists its variants: "root child spawned (carries the root pid), an exec
completed (carries pid, decoded ExecData, return value), a process exited
(carries pid, exit status), and root child exited (carries final exit
code)".  The constructor names follow the uses in src/main.rs
(`TracerEvent::RootChildExit { exit_code, .. }`) and src/tui/app.rs
(`TracerEvent::RootChildSpawn(pid)`). -/
inductive TracerEvent where
  | rootChildSpawn (pid : Nat)
  | execCompleted (pid : Nat) (data : ExecData) (result : Int)
  | processExited (pid : Nat) (status : Int)
  | rootChildExit (pid : Nat) (exit_code : Int)
deriving DecidableEq, Repr

/-- Is this event the terminal `RootChildExit` event? -/
def TracerEvent.isRootChildExit : TracerEvent → Bool
  | TracerEvent.rootChildExit _ _ => true
  | _ => false

/-- Is this event a `RootChildSpawn` event? -/
def TracerEvent.isRootChildSpawn : TracerEvent → Bool
  | TracerEvent.rootChildSpawn _ => true
  | _ => false

/-- The log-mode consumer loop (src/main.rs lines 99-103):
`loop { if let Some(TracerEvent::RootChildExit { exit_code, .. }) =
tracer_rx.recv().await { process::exit(exit_code); } }`.
The channel's content at loop start is the finite list of buffered events
(the tracer thread has already been joined, so the channel is closed and
no further events arrive).  One loop iteration receives the next buffered
event, or `None` once the buffer is empty; only a `RootChildExit` match
exits the process.  `fuel` counts loop iterations: `some code` means the
process exited with `code` within `fuel` iterations, `none` means the loop
is still running after `fuel` iterations. -/
def logModeLoop : Nat → List TracerEvent → Option Int
  | 0, _ => none
  | fuel + 1, [] => logModeLoop fuel []
  | fuel + 1, e :: rest =>
    match e with
    | TracerEvent.rootChildExit _ exit_code => some exit_code
    | _ => logModeLoop fuel rest

/-- The numeric value of a digit string, as accumulated by `atoi`
(ASCII code minus 48 per digit, most significant first). -/
def digitsToNat (s : List Char) : Nat :=
  s.foldl (fun a c => a * 10 + (c.toNat - 48)) 0

/-- `atoi::<u32>` from the `atoi` crate as used in src/main.rs: parses the
leading decimal digits of a byte slice; returns `None` when the slice does
not start with a digit, or when the value overflows `u32` (the crate uses
checked arithmetic, so any value of the digit run beyond `u32::MAX` yields
`None`). -/
def atoi (s : List Char) : Option Nat :=
  let ds := s.takeWhile Char.isDigit
  if ds.isEmpty then none
  else if digitsToNat ds < 4294967296 then some (digitsToNat ds) else none

/-- The numeric head of the kernel release string
(src/main.rs lines 128-134): the prefix up to the first character that is
neither `'.'` nor an ASCII digit, or the whole string when there is no
such character. -/
def kernelNumericHead (kstr : List Char) : List Char :=
  match kstr.findIdx? (fun c => !(c == '.' || c.isDigit)) with
  | some pos => kstr.take pos
  | none => kstr

/-- The `'.'`-separated components of the numeric head of the release
string (src/main.rs line 135: `kver.split(|&c| c == b'.')`). -/
def kernelVersionComponents (release : List Char) : List (List Char) :=
  (kernelNumericHead release).splitOn '.'

/-- `is_current_kernel_greater_than` (src/main.rs lines 125-143), with the
kernel release string passed explicitly (the source obtains it from
`uname`).  The first two `'.'`-separated components of the numeric head
are parsed with `atoi::<u32>`; a parse failure of either is an error.
Rust's `(major, minor) >= min_support` is lexicographic. -/
def is_current_kernel_greater_than (release : List Char) (min_support : Nat × Nat) :
    Except String Bool :=
  let kvers := kernelVersionComponents release
  match kvers.head?.bind atoi with
  | none => Except.error "Failed to parse kernel major ver!"
  | some major =>
    match (kvers.drop 1).head?.bind atoi with
    | none => Except.error "Failed to parse kernel minor ver!"
    | some minor =>
      Except.ok (decide (major > min_support.1 ∨ (major = min_support.1 ∧ minor ≥ min_support.2)))

/-- The kernel-version gate in `main` (src/main.rs lines 64-72): the `?`
operator propagates a parse error (startup failure); otherwise the run
continues, logging a warning exactly when the check returned `false`.
Returns whether a warning was logged. -/
def mainKernelGate (release : List Char) : Except String Bool :=
  match is_current_kernel_greater_than release (4, 8) with
  | Except.error e => Except.error e
  | Except.ok ok => Except.ok (!ok)

/-- A POSIX signal, restricted to the two signals `App::exit` can send
(src/tui/app.rs lines 321-331). -/
inductive Signal where
  | SIGTERM
  | SIGKILL
deriving DecidableEq, Repr

/-- The TUI `App` state (src/tui/app.rs lines 58-68), restricted to the
fields the claims are about.  `term : Option PseudoTerminalPane` is
modelled as `Option Unit` (only its presence matters to these claims);
`event_list` stands for `event_list.items`. -/
structure App where
  event_list : List TracerEvent
  term : Option Unit
  root_pid : Option Nat
  split_percentage : Nat
deriving DecidableEq, Repr

/-- `App::new` (src/tui/app.rs lines 71-107), restricted to the modelled
fields: `split_percentage` is 50 when a pty master is given and 100
otherwise; `root_pid` starts as `None`; the event list starts empty. -/
def App.new (pty_master : Option Unit) : App :=
  { event_list := []
    term := pty_master
    root_pid := none
    split_percentage := if pty_master.isSome then 50 else 100 }

/-- `App::shrink_pane` (src/tui/app.rs lines 109-113):
`self.split_percentage.saturating_sub(1).max(10)`, only when a terminal
pane is present.  `u16::saturating_sub 1` on a `Nat` model is `Nat.sub`. -/
def App.shrink_pane (a : App) : App :=
  if a.term.isSome then
    { a with split_percentage := max (a.split_percentage - 1) 10 }
  else a

/-- `App::grow_pane` (src/tui/app.rs lines 115-119):
`self.split_percentage.saturating_add(1).min(90)`, only when a terminal
pane is present.  `u16::saturating_add 1` caps at 65535 before the
`min 90`. -/
def App.grow_pane (a : App) : App :=
  if a.term.isSome then
    { a with split_percentage := min (min (a.split_percentage + 1) 65535) 90 }
  else a

/-- A pane-resizing operation, as dispatched by the TUI action loop. -/
inductive PaneOp where
  | shrink
  | grow
deriving DecidableEq, Repr

/-- Apply one pane operation. -/
def App.applyPaneOp (a : App) : PaneOp → App
  | PaneOp.shrink => a.shrink_pane
  | PaneOp.grow => a.grow_pane

/-- Apply a sequence of pane operations in order. -/
def App.applyPaneOps : App → List PaneOp → App
  | a, [] => a
  | a, op :: rest => App.applyPaneOps (a.applyPaneOp op) rest

/-- The handling of one tracer event in the TUI event loop
(src/tui/app.rs lines 221-229): `RootChildSpawn(pid)` only records the
pid as `root_pid`; every other tracer event is pushed onto
`event_list.items`. -/
def App.handleTracerEvent (a : App) (te : TracerEvent) : App :=
  match te with
  | TracerEvent.rootChildSpawn pid => { a with root_pid := some pid }
  | te => { a with event_list := a.event_list ++ [te] }

/-- Handle a sequence of tracer events in the order received. -/
def App.handleTracerEvents : App → List TracerEvent → App
  | a, [] => a
  | a, te :: rest => App.handleTracerEvents (a.handleTracerEvent te) rest

/-- `App::signal_root_process` (src/tui/app.rs lines 333-338): sends `sig`
to `root_pid` when it is known, otherwise does nothing.  The returned list
is the sequence of `kill(pid, sig)` calls issued. -/
def App.signal_root_process (a : App) (sig : Signal) : List (Nat × Signal) :=
  match a.root_pid with
  | some root_pid => [(root_pid, sig)]
  | none => []

/-- `App::exit` (src/tui/app.rs lines 321-331), restricted to the signals
it sends: SIGTERM to the root when `terminate_on_exit`, else SIGKILL when
`kill_on_exit`, else nothing.  (The pty-master close on line 323 sends no
signal.) -/
def App.exit (a : App) (terminate_on_exit kill_on_exit : Bool) : List (Nat × Signal) :=
  if terminate_on_exit then a.signal_root_process Signal.SIGTERM
  else if kill_on_exit then a.signal_root_process Signal.SIGKILL
  else []

/-! Helper lemmas -/

/-- The only panic `parseEnvEntry` can raise is the string-slice
out-of-bounds panic. -/
lemma parseEnvEntry_error_eq (item : List Char) (p : Panic)
    (h : parseEnvEntry item = Except.error p) : p = Panic.sliceIndexOutOfBounds := by
  simp only [parseEnvEntry] at h
  split at h <;> split at h <;>
    first
      | exact (Except.error.inj h).symm
      | exact absurd h (by simp)

/-- The only panic the envp diff loop can raise is the string-slice
out-of-bounds panic. -/
lemma diffEnvLoop_error_eq (envp : List (List Char)) :
    ∀ env p, diffEnvLoop env envp = Except.error p → p = Panic.sliceIndexOutOfBounds := by
  induction envp with
  | nil =>
    intro env p h
    simp [diffEnvLoop] at h
  | cons item rest ih =>
    intro env p h
    rw [diffEnvLoop] at h
    cases hpe : parseEnvEntry item with
    | error q =>
      simp [hpe] at h
      exact h ▸ parseEnvEntry_error_eq item q hpe
    | ok kv =>
      obtain ⟨k, v⟩ := kv
      simp only [hpe] at h
      cases hget : envGet env k with
      | some orig_v =>
        simp only [hget] at h
        cases hdl : diffEnvLoop (envRemove env k) rest with
        | error q =>
          simp [hdl] at h
          exact h ▸ ih (envRemove env k) q hdl
        | ok pr =>
          simp [hdl] at h
      | none =>
        simp only [hget] at h
        cases hdl : diffEnvLoop env rest with
        | error q =>
          simp [hdl] at h
          exact h ▸ ih env q hdl
        | ok pr =>
          simp [hdl] at h

/-! Claims about `print_execve_trace` -/

/-- Claim C1: for the baseline mapping `{A=1, B=2}` and a traced envp
containing exactly the entries `A=1` and `C=3` (in either order), the
printed diff of `print_execve_trace` reports `C` as added and `B` as
removed and nothing for `A`, whenever env diffing is active
(`--no-diff-env` and `--trace-env` absent); the printed records are
identical for both orderings of the envp array. -/
theorem claim1_env_diff_reports (envp : List (List Char)) (f : List Char)
    (av : List (List Char)) (pid : Nat) (comm : List Char) (args : TracingArgs)
    (horder : envp = ["A=1".data, "C=3".data] ∨ envp = ["C=3".data, "A=1".data])
    (hdiff : args.no_diff_env = false) (htrace : args.trace_env = false) :
    print_execve_trace ⟨pid, comm, some ⟨f, av, envp⟩⟩ 0 args baselineAB =
      Except.ok ([DiffRecord.added "C".data "3".data, DiffRecord.removed "B".data "2".data],
        baselineAB) := by
  obtain ⟨a1, a2, a3, a4, a5, a6⟩ := args
  dsimp only at hdiff htrace
  subst hdiff htrace
  obtain rfl | rfl := horder <;> rfl

/-- Witness for C1 at the first ordering of the envp array. -/
theorem claim1_witness :
    print_execve_trace ⟨1, "sh".data, some ⟨"/bin/sh".data, [], ["A=1".data, "C=3".data]⟩⟩ 0
        defaultTracingArgs baselineAB =
      Except.ok ([DiffRecord.added "C".data "3".data, DiffRecord.removed "B".data "2".data],
        baselineAB) :=
  claim1_env_diff_reports _ _ _ _ _ defaultTracingArgs (Or.inl rfl) rfl rfl

/-- Claim C2 evaluation: with env diffing active (the default), an envp
entry without `'='` ("FOO"), and likewise one that begins with `'='` and
has no second `'='` ("=BAR"), drive `print_execve_trace` into the
`&tail[1..]` slice (src/printer.rs line 67) with an empty `tail` — a
panic, despite the "assuming value to empty string!" warning logged just
before. -/
theorem claim2_envp_without_eq_panics :
    print_execve_trace ⟨1, "sh".data, some ⟨"/bin/sh".data, [], ["FOO".data]⟩⟩ 0
        defaultTracingArgs baselineAB = Except.error Panic.sliceIndexOutOfBounds ∧
    print_execve_trace ⟨1, "sh".data, some ⟨"/bin/sh".data, [], ["=BAR".data]⟩⟩ 0
        defaultTracingArgs baselineAB = Except.error Panic.sliceIndexOutOfBounds :=
  ⟨rfl, rfl⟩

/-- Claim C4: when `state.exec_data` is `Some` — the documented
precondition, holding at the syscall-exit of an exec call — the `unwrap`
at src/printer.rs line 23 cannot fail (the call never results in the
unwrap-on-None panic); and for any state with `exec_data = None` the call
panics exactly there. -/
theorem claim4_exec_data_unwrap (state : ProcessState) (result : Int)
    (args : TracingArgs) (env : EnvMap) :
    (state.exec_data.isSome = true →
      print_execve_trace state result args env ≠ Except.error Panic.unwrapNone) ∧
    (state.exec_data = none →
      print_execve_trace state result args env = Except.error Panic.unwrapNone) := by
  obtain ⟨pid, comm, ed⟩ := state
  cases ed with
  | none =>
    exact ⟨fun h => by simp at h, fun _ => rfl⟩
  | some d =>
    refine ⟨fun _ hcontra => ?_, fun h => by simp at h⟩
    simp only [print_execve_trace] at hcontra
    split at hcontra
    · cases hdl : diffEnvLoop env d.envp with
      | error p =>
        have hp := diffEnvLoop_error_eq d.envp env p hdl
        rw [hp] at hdl
        simp [hdl] at hcontra
      | ok pr =>
        simp [hdl] at hcontra
    · simp at hcontra

/-- Witness for C4: a state with `exec_data` present does not hit the
unwrap panic; one with `exec_data` absent does. -/
theorem claim4_witness :
    print_execve_trace ⟨1, "sh".data, some ⟨"/bin/sh".data, [], ["A=1".data]⟩⟩ 0
        defaultTracingArgs baselineAB ≠ Except.error Panic.unwrapNone ∧
    print_execve_trace ⟨1, "sh".data, none⟩ 0 defaultTracingArgs baselineAB =
      Except.error Panic.unwrapNone :=
  ⟨(claim4_exec_data_unwrap ⟨1, "sh".data, some ⟨"/bin/sh".data, [], ["A=1".data]⟩⟩ 0
      defaultTracingArgs baselineAB).1 rfl,
   (claim4_exec_data_unwrap ⟨1, "sh".data, none⟩ 0 defaultTracingArgs baselineAB).2 rfl⟩

/-- Claim C7: `print_execve_trace` never modifies the baseline mapping:
whenever it returns successfully, the baseline map after the call is the
one passed in — the diff works on a private clone
(src/printer.rs line 45). -/
theorem claim7_baseline_unchanged (state : ProcessState) (result : Int)
    (args : TracingArgs) (env : EnvMap) (recs : List DiffRecord) (env2 : EnvMap)
    (h : print_execve_trace state result args env = Except.ok (recs, env2)) :
    env2 = env := by
  obtain ⟨pid, comm, ed⟩ := state
  cases ed with
  | none => exact absurd h (by simp [print_execve_trace])
  | some d =>
    simp only [print_execve_trace] at h
    split at h
    · cases hdl : diffEnvLoop env d.envp with
      | error p =>
        simp [hdl] at h
      | ok pr =>
        obtain ⟨r, c⟩ := pr
        rw [hdl] at h
        have h2 := congrArg (fun x => match x with
          | Except.ok pr => pr.2
          | Except.error _ => env) h
        exact h2.symm
    · have h2 := congrArg (fun x => match x with
        | Except.ok pr => pr.2
        | Except.error _ => env) h
      exact h2.symm

/-- Witness for C7 at a call whose diff modifies and removes entries of
the clone: the caller's baseline is returned unchanged. -/
theorem claim7_witness : baselineAB = baselineAB :=
  claim7_baseline_unchanged ⟨1, "sh".data, some ⟨"/bin/sh".data, [], ["A=2".data]⟩⟩ 0
    defaultTracingArgs baselineAB
    [DiffRecord.modified "A".data "2".data, DiffRecord.removed "B".data "2".data]
    baselineAB rfl


/-! Claims about the log-mode consumer loop -/

/-- One iteration of the log-mode loop on a non-terminal event just
consumes it. -/
lemma logModeLoop_cons_nonroot (n : Nat) (e : TracerEvent) (l : List TracerEvent)
    (he : e.isRootChildExit = false) :
    logModeLoop (n + 1) (e :: l) = logModeLoop n l := by
  cases e <;> simp [logModeLoop, TracerEvent.isRootChildExit] at he ⊢

/-- Claim C3 evaluation: when the event channel is closed without a
`RootChildExit` event ever delivered (no buffered events remain), the
log-mode receive loop never terminates — `recv` returns `None`
immediately, the `if let` does not match, and the loop retries forever,
for any number of iterations.  This refutes the claim that the loop
terminates on channel closure: the code busy-loops instead of treating
closure as an abnormal termination. -/
theorem claim3_closed_channel_never_terminates (fuel : Nat) :
    logModeLoop fuel [] = none := by
  induction fuel with
  | zero => rfl
  | succ n ih => rw [logModeLoop]; exact ih

/-- Claim C5: in log mode, upon receiving the root-child-exit event the
process terminates with exactly the exit code carried by that event, no
matter what events are buffered after it (they are never processed):
after skipping any prefix of non-terminal events, the loop returns the
carried code. -/
theorem claim5_root_exit_terminates (pre post : List TracerEvent) (pid : Nat) (code : Int)
    (fuel : Nat) (hpre : ∀ e ∈ pre, e.isRootChildExit = false)
    (hfuel : pre.length < fuel) :
    logModeLoop fuel (pre ++ TracerEvent.rootChildExit pid code :: post) = some code := by
  induction pre generalizing fuel with
  | nil =>
    cases fuel with
    | zero => omega
    | succ n => rfl
  | cons e rest ih =>
    cases fuel with
    | zero => exact absurd hfuel (by omega)
    | succ n =>
      rw [List.cons_append,
        logModeLoop_cons_nonroot n e _ (hpre e (List.mem_cons_self e rest))]
      exact ih n (fun x hx => hpre x (List.mem_cons_of_mem e hx))
        (Nat.lt_of_succ_lt_succ hfuel)

/-- Witness for C5: one non-terminal event, then a root exit with code 7,
then a further event that is never processed. -/
theorem claim5_witness :
    logModeLoop 3 [TracerEvent.processExited 2 0, TracerEvent.rootChildExit 1 7,
      TracerEvent.execCompleted 2 ⟨[], [], []⟩ 0] = some 7 :=
  claim5_root_exit_terminates [TracerEvent.processExited 2 0]
    [TracerEvent.execCompleted 2 ⟨[], [], []⟩ 0] 1 7 3 (by decide) (by decide)

/-! Claims about the TUI `App` -/

/-- Claim C6: on TUI exit, SIGTERM goes to the recorded root pid when
`terminate_on_exit` is set, else SIGKILL when `kill_on_exit` is set; with
neither flag, or when the root pid is unknown, no signal is sent; and
every signal that is sent targets exactly the recorded root pid. -/
theorem claim6_exit_signals (a : App) (t k : Bool) :
    (a.root_pid = none → a.exit t k = []) ∧
    (t = false → k = false → a.exit t k = []) ∧
    (∀ p, a.root_pid = some p → t = true → a.exit t k = [(p, Signal.SIGTERM)]) ∧
    (∀ p, a.root_pid = some p → t = false → k = true →
      a.exit t k = [(p, Signal.SIGKILL)]) ∧
    (∀ p s, (p, s) ∈ a.exit t k → a.root_pid = some p) := by
  obtain ⟨el, tm, rp, sp⟩ := a
  cases t <;> cases k <;> cases rp <;>
    simp [App.exit, App.signal_root_process]

/-- Witness for C6 at concrete apps and flag combinations. -/
theorem claim6_witness :
    App.exit ⟨[], none, some 42, 50⟩ true false = [(42, Signal.SIGTERM)] ∧
    App.exit ⟨[], none, some 42, 50⟩ false true = [(42, Signal.SIGKILL)] ∧
    App.exit ⟨[], none, some 42, 50⟩ false false = [] ∧
    App.exit ⟨[], none, none, 50⟩ true true = [] :=
  ⟨(claim6_exit_signals ⟨[], none, some 42, 50⟩ true false).2.2.1 42 rfl rfl,
   (claim6_exit_signals ⟨[], none, some 42, 50⟩ false true).2.2.2.1 42 rfl rfl rfl,
   (claim6_exit_signals ⟨[], none, some 42, 50⟩ false false).2.1 rfl rfl,
   (claim6_exit_signals ⟨[], none, none, 50⟩ true true).1 rfl⟩

/-- Pane operations never change whether a terminal pane is present. -/
lemma applyPaneOp_term (a : App) (op : PaneOp) : (a.applyPaneOp op).term = a.term := by
  cases op <;> simp only [App.applyPaneOp, App.shrink_pane, App.grow_pane] <;>
    split <;> rfl

/-- With a terminal pane present, one pane operation preserves
`10 ≤ split_percentage ≤ 90`. -/
lemma applyPaneOp_range (a : App) (op : PaneOp) (hterm : a.term.isSome = true)
    (h1 : 10 ≤ a.split_percentage) (h2 : a.split_percentage ≤ 90) :
    10 ≤ (a.applyPaneOp op).split_percentage ∧
      (a.applyPaneOp op).split_percentage ≤ 90 := by
  cases op <;>
    simp only [App.applyPaneOp, App.shrink_pane, App.grow_pane, hterm, if_true] <;>
    constructor <;> omega

/-- Without a terminal pane, pane operations are no-ops. -/
lemma applyPaneOp_noTerm (a : App) (op : PaneOp) (hterm : a.term = none) :
    a.applyPaneOp op = a := by
  cases op <;> simp [App.applyPaneOp, App.shrink_pane, App.grow_pane, hterm]

/-- Claim C8: starting from `App::new`, any sequence of `shrink_pane` and
`grow_pane` calls keeps `split_percentage` within `[10, 90]` when a
terminal pane is present (initial value 50), and leaves it at its initial
value 100 when no terminal pane is present. -/
theorem claim8_split_percentage_bounds (ops : List PaneOp) (pty : Option Unit) :
    (pty.isSome = true →
      10 ≤ ((App.new pty).applyPaneOps ops).split_percentage ∧
        ((App.new pty).applyPaneOps ops).split_percentage ≤ 90) ∧
    (pty.isSome = false →
      ((App.new pty).applyPaneOps ops).split_percentage = 100) := by
  constructor
  · intro hp
    have hgen : ∀ (a : App), a.term.isSome = true → 10 ≤ a.split_percentage →
        a.split_percentage ≤ 90 →
        10 ≤ (a.applyPaneOps ops).split_percentage ∧
          (a.applyPaneOps ops).split_percentage ≤ 90 := by
      induction ops with
      | nil => intro a _ h2 h3; exact ⟨h2, h3⟩
      | cons op rest ih =>
        intro a h1 h2 h3
        have h4 := applyPaneOp_range a op h1 h2 h3
        have h5 : (a.applyPaneOp op).term.isSome = true := by
          rw [applyPaneOp_term]; exact h1
        rw [App.applyPaneOps]
        exact ih (a.applyPaneOp op) h5 h4.1 h4.2
    refine hgen (App.new pty) hp ?_ ?_ <;> simp [App.new, hp]
  · intro hp
    have hnone : pty = none := by
      cases pty with
      | none => rfl
      | some u => simp at hp
    subst hnone
    have hgen : ∀ (a : App), a.term = none → a.applyPaneOps ops = a := by
      induction ops with
      | nil => intro a _; rfl
      | cons op rest ih =>
        intro a h1
        rw [App.applyPaneOps, applyPaneOp_noTerm a op h1]
        exact ih a h1
    rw [hgen (App.new none) rfl]
    rfl

/-- Witness for C8 at a concrete operation sequence, with and without a
terminal pane. -/
theorem claim8_witness :
    (10 ≤ (App.applyPaneOps (App.new (some ()))
        [PaneOp.shrink, PaneOp.grow, PaneOp.grow]).split_percentage ∧
      (App.applyPaneOps (App.new (some ()))
        [PaneOp.shrink, PaneOp.grow, PaneOp.grow]).split_percentage ≤ 90) ∧
    (App.applyPaneOps (App.new none)
      [PaneOp.shrink, PaneOp.grow, PaneOp.grow]).split_percentage = 100 :=
  ⟨(claim8_split_percentage_bounds [PaneOp.shrink, PaneOp.grow, PaneOp.grow] (some ())).1 rfl,
   (claim8_split_percentage_bounds [PaneOp.shrink, PaneOp.grow, PaneOp.grow] none).2 rfl⟩

/-- Claim C10: in the TUI event loop, a root-child-spawned event only
records the carried pid as `root_pid` and is never appended to the event
list; every other tracer event is appended, and a whole received sequence
ends up in the event list filtered of spawn events with its order
preserved. -/
theorem claim10_tui_event_routing (tes : List TracerEvent) (a : App) :
    (∀ p, a.handleTracerEvent (TracerEvent.rootChildSpawn p) =
      { a with root_pid := some p }) ∧
    (∀ te, te.isRootChildSpawn = false →
      a.handleTracerEvent te = { a with event_list := a.event_list ++ [te] }) ∧
    (a.handleTracerEvents tes).event_list =
      a.event_list ++ tes.filter (fun te => !te.isRootChildSpawn) := by
  refine ⟨fun p => rfl, fun te hte => ?_, ?_⟩
  · cases te <;>
      first
        | rfl
        | exact absurd hte (by simp [TracerEvent.isRootChildSpawn])
  · induction tes generalizing a with
    | nil => simp [App.handleTracerEvents]
    | cons te rest ih =>
      rw [App.handleTracerEvents]
      cases te <;>
        simp [App.handleTracerEvent, TracerEvent.isRootChildSpawn, ih,
          List.filter_cons]

/-! Claim about the kernel version check -/

/-- `takeWhile` keeps a list all of whose elements satisfy the
predicate. -/
lemma takeWhile_eq_self_of_all {α : Type} (p : α → Bool) (l : List α)
    (h : ∀ c ∈ l, p c = true) : l.takeWhile p = l := by
  induction l with
  | nil => rfl
  | cons x xs ih =>
    rw [List.takeWhile_cons, h x (List.mem_cons_self x xs)]
    simp [ih (fun c hc => h c (List.mem_cons_of_mem x hc))]

/-- `atoi` on a nonempty all-digit string within `u32` range returns its
value. -/
lemma atoi_digits (s : List Char) (hne : s ≠ []) (hd : ∀ c ∈ s, c.isDigit = true)
    (hb : digitsToNat s < 4294967296) : atoi s = some (digitsToNat s) := by
  have hs : s.takeWhile Char.isDigit = s := takeWhile_eq_self_of_all Char.isDigit s hd
  have hemp : s.isEmpty = false := by
    cases s with
    | nil => exact absurd rfl hne
    | cons c cs => rfl
  simp [atoi, hs, hemp, hb]

/-- Claim C9: for every release string whose numeric head yields
MAJOR.MINOR components that are nonempty digit strings within `u32`
range, `is_current_kernel_greater_than (4, 8)` returns `Ok` of exactly
the lexicographic comparison `(MAJOR, MINOR) >= (4, 8)`; when the major
or the minor component cannot be parsed it returns the corresponding
error; and a below-minimum kernel (`Ok false`) only produces a warning in
`main`, never a startup failure. -/
theorem claim9_kernel_version_check :
    (∀ (release maj minr : List Char) (rest : List (List Char)),
      kernelVersionComponents release = maj :: minr :: rest →
      maj ≠ [] → minr ≠ [] →
      (∀ c ∈ maj, c.isDigit = true) → (∀ c ∈ minr, c.isDigit = true) →
      digitsToNat maj < 4294967296 → digitsToNat minr < 4294967296 →
      is_current_kernel_greater_than release (4, 8) =
        Except.ok (decide (4 < digitsToNat maj ∨
          (digitsToNat maj = 4 ∧ 8 ≤ digitsToNat minr)))) ∧
    (∀ release, (kernelVersionComponents release).head?.bind atoi = none →
      is_current_kernel_greater_than release (4, 8) =
        Except.error "Failed to parse kernel major ver!") ∧
    (∀ release major, (kernelVersionComponents release).head?.bind atoi = some major →
      ((kernelVersionComponents release).drop 1).head?.bind atoi = none →
      is_current_kernel_greater_than release (4, 8) =
        Except.error "Failed to parse kernel minor ver!") ∧
    (∀ release, is_current_kernel_greater_than release (4, 8) = Except.ok false →
      mainKernelGate release = Except.ok true) := by
  refine ⟨?_, ?_, ?_, ?_⟩
  · intro release maj minr rest hcomp hm hn hdm hdn hbm hbn
    simp only [is_current_kernel_greater_than]
    rw [hcomp]
    simp [atoi_digits maj hm hdm hbm, atoi_digits minr hn hdn hbn]
  · intro release h
    simp [is_current_kernel_greater_than, h]
  · intro release major h1 h2
    simp only [List.head?_drop] at h2
    simp [is_current_kernel_greater_than, h1, h2]
  · intro release h
    simp [mainKernelGate, h]

/-- Witness for C9: concrete release strings for the true, false, both
error, and warn-only cases. -/
theorem claim9_witness :
    is_current_kernel_greater_than "6.1.0-zen".data (4, 8) = Except.ok true ∧
    is_current_kernel_greater_than "3.10.5".data (4, 8) = Except.ok false ∧
    is_current_kernel_greater_than "foo".data (4, 8) =
      Except.error "Failed to parse kernel major ver!" ∧
    is_current_kernel_greater_than "5".data (4, 8) =
      Except.error "Failed to parse kernel minor ver!" ∧
    mainKernelGate "3.10.5".data = Except.ok true := by
  refine ⟨?_, ?_, ?_, ?_, ?_⟩
  · rw [claim9_kernel_version_check.1 "6.1.0-zen".data "6".data "1".data [['0']]
      (by decide) (by decide) (by decide) (by decide) (by decide) (by decide) (by decide)]
    rfl
  · rw [claim9_kernel_version_check.1 "3.10.5".data "3".data "10".data [['5']]
      (by decide) (by decide) (by decide) (by decide) (by decide) (by decide) (by decide)]
    rfl
  · exact claim9_kernel_version_check.2.1 "foo".data (by decide)
  · exact claim9_kernel_version_check.2.2.1 "5".data 5 (by decide) (by decide)
  · exact claim9_kernel_version_check.2.2.2 "3.10.5".data (by rfl)

/-- Witness for C10: a non-spawn tracer event is appended to the event
list. -/
theorem claim10_witness :
    App.handleTracerEvent ⟨[], none, none, 100⟩ (TracerEvent.processExited 7 0) =
      ⟨[TracerEvent.processExited 7 0], none, none, 100⟩ :=
  (claim10_tui_event_routing [] ⟨[], none, none, 100⟩).2.1
    (TracerEvent.processExited 7 0) rfl

end Tracexec
